import Mathlib

/-!
Shallow embedding of the core of the repository: the dual-token
authentication service (`app/auth/services.py`), the repository base with
automatic failure translation (`app/core/repo_base.py`), the generic CRUD
layer (`app/core/crud_base.py`) and the serializers
(`app/core/serializer.py`).

Modelling decisions:
* UUIDs are modelled as `String` (the code only moves them through
  `str(...)` / `UUID(...)`; `UUID(str(u)) == u`).
* A JWT is either a signed token (its claims dictionary plus the signing
  key) or a malformed string.  `jwt.encode`/`jwt.decode` are embedded by
  their contract: decoding with the wrong key or a malformed token raises
  `DecodeError`, a present `exp` claim that is `<=` now raises
  `ExpiredSignatureError` (pyjwt semantics), otherwise the claims come
  back unchanged.
* Timestamps and time deltas are `Int` seconds.
* bcrypt verification (`pwd_context.verify`) is an external library and is
  passed in as an abstract function `verify : String → String → Bool`.
* Exceptions are a single `Except` error type `PyErr` covering the
  sqlalchemy storage errors, the raw jwt library errors and the domain
  error classes of `core/errors.py` and `auth/errors.py`.
-/

/-- A JSON-ish claim value as stored in a token payload dictionary. -/
inductive JVal where
  | s (v : String)
  | b (v : Bool)
  | i (v : Int)
deriving DecidableEq, Repr

/-- A payload dictionary: field name to value, as `dict` in the source. -/
abbrev Claims := List (String × JVal)

/-- `d[k] = v` on a Python dict: overwrite the key if present, else append.
Embeds `to_encode.update({"exp": expire})` in `create_jwt_token`. -/
def dictSet (d : Claims) (k : String) (v : JVal) : Claims :=
  if d.any (fun p => p.1 == k) then
    d.map (fun p => if p.1 == k then (k, v) else p)
  else
    d ++ [(k, v)]

/-- Python `pat in msg` for the fixed non-empty patterns used in
`handle_exceptions`. -/
def strContains (msg pat : String) : Bool :=
  (msg.splitOn pat).length != 1

/-- The exceptions that can cross the boundaries modelled here.
`noResultFound` and `integrityError` are the sqlalchemy storage errors;
`decodeError` and `expiredSignatureError` are the raw jwt library errors
(`jwt.DecodeError`, `jwt.ExpiredSignatureError`); the rest are the domain
errors of `core/errors.py` and `auth/errors.py`.  `keyError` and
`typeError` stand for the Python builtins. -/
inductive PyErr where
  | noResultFound
  | integrityError (msg : String)
  | decodeError
  | expiredSignatureError
  | notFoundError (entity : String)
  | alreadyExistError (entity : String)
  | notAuthorizedError
  | invalidLoginOrPasswordError
  | refreshTokenRequiredError
  | adminRightsRequiredError
  | keyError
  | typeError
deriving DecidableEq, Repr

/-- A JWT on the wire: a properly signed token (claims + signing key), or
any string that does not parse as a JWT (including the empty string). -/
inductive Token where
  | signed (claims : Claims) (key : String)
  | malformed (raw : String)
deriving DecidableEq, Repr

/-- `settings.SECRET_KEY` (opaque value loaded from the environment). -/
def SECRET_KEY : String := "app-secret-key"

/-- `settings.ACCESS_TOKEN_EXPIRE_MINUTES` (default 15). -/
def ACCESS_TOKEN_EXPIRE_MINUTES : Int := 15

/-- `settings.REFRESH_TOKEN_EXPIRE_MINUTES` (default one week). -/
def REFRESH_TOKEN_EXPIRE_MINUTES : Int := 60 * 24 * 7

/-- `jwt.decode(token, key, algorithms=[...])` at time `now`:
malformed token or wrong key raises `DecodeError` (pyjwt's
`InvalidSignatureError` is a subclass of `DecodeError`); a present integer
`exp <= now` raises `ExpiredSignatureError`; otherwise the claims are
returned. -/
def jwt_decode (tok : Token) (key : String) (now : Int) : Except PyErr Claims :=
  match tok with
  | .malformed _ => .error .decodeError
  | .signed claims k =>
    if k != key then .error .decodeError
    else
      match claims.lookup "exp" with
      | some (.i e) => if e ≤ now then .error .expiredSignatureError else .ok claims
      | _ => .ok claims

/-- The `Auth` domain model (`app/auth/models.py`), UUIDs as strings. -/
structure Auth where
  id : String
  user_id : String
  username : String
  password_hash : String
  is_admin : Bool := false
deriving DecidableEq, Repr

/-- The `AccessTokenPayload` dataclass (`app/auth/services.py`). -/
structure AccessTokenPayload where
  user_id : String
  username : String
  is_admin : Bool := false
  token_type : String := "access"
deriving DecidableEq, Repr

/-! ## Repository base: `handle_exceptions` and `RepoMeta`
(`app/core/repo_base.py`) -/

/-- The part of a repository instance `handle_exceptions` reads at call
time: `self.entity_cls`, reduced to the entity class name that its
generated `NotFoundError` / `AlreadyExistError` carry. -/
structure RepoSelf where
  entityName : String
deriving DecidableEq, Repr

/-- The message test of the `match` in `handle_exceptions`: sqlite and
postgres unique-constraint violation messages. -/
def isUniqueViolationMsg (msg : String) : Bool :=
  msg.startsWith "(sqlite3.IntegrityError) UNIQUE constraint failed:"
    || strContains msg "duplicate key value violates unique constraint"

/-- The `handle_exceptions` decorator: run the wrapped call; translate
`NoResultFound` to the entity's `NotFoundError`, an `IntegrityError`
whose message is a unique-constraint violation to the entity's
`AlreadyExistError`, re-raise any other `IntegrityError`, and let every
other outcome through unchanged. -/
def handle_exceptions {α β : Type} (func : RepoSelf → α → Except PyErr β) :
    RepoSelf → α → Except PyErr β :=
  fun self args =>
    match func self args with
    | .error .noResultFound => .error (.notFoundError self.entityName)
    | .error (.integrityError msg) =>
      if isUniqueViolationMsg msg then .error (.alreadyExistError self.entityName)
      else .error (.integrityError msg)
    | r => r

/-- A method as it sits in a class namespace handed to `RepoMeta.__new__`:
whether it is a coroutine function, whether it already carries the
`__handle_exceptions__` marker, and its behaviour. -/
structure RepoMethod (α β : Type) where
  isCoroutine : Bool
  hasMarker : Bool
  run : RepoSelf → α → Except PyErr β

/-- What `RepoMeta.__new__` does to one namespace entry: wrap every
coroutine function that does not already carry the marker in
`handle_exceptions` (which sets the marker), leave everything else. -/
def repoMetaTransform {α β : Type} (m : RepoMethod α β) : RepoMethod α β :=
  if m.isCoroutine && !m.hasMarker then
    { isCoroutine := m.isCoroutine, hasMarker := true, run := handle_exceptions m.run }
  else m

/-- `RepoMeta.__new__` over the whole class namespace: the loop treats
each `(attr_name, attr_value)` entry independently. -/
def repoMetaNew {α β : Type} (ns : List (String × RepoMethod α β)) :
    List (String × RepoMethod α β) :=
  ns.map (fun p => (p.1, repoMetaTransform p.2))

/-- Which errors the classification step of `handle_exceptions` consumes
(the storage-native sqlalchemy errors); everything else is re-raised
unchanged. -/
def isStorageNative : PyErr → Bool
  | .noResultFound => true
  | .integrityError _ => true
  | _ => false

/-! ## The Auth data access layer (`app/auth/dal.py`)

The repository holds a live storage session; a session's `auth` table is
modelled as the list of stored `Auth` rows.  `res.mappings().one()` raises
`NoResultFound` when the query matches nothing (username is unique at the
storage layer, so at most one row matches). -/

/-- `AuthCrud.get_by_id` via `CrudBase.get_by_id`: SELECT by primary key,
`NoResultFound` if absent. -/
def crud_get_by_id (rows : List Auth) (id_ : String) : Except PyErr Auth :=
  match rows.find? (fun a => a.id == id_) with
  | none => .error .noResultFound
  | some a => .ok a

/-- `AuthCrud.get_by_username`: SELECT by the unique username column,
`NoResultFound` if absent. -/
def crud_get_by_username (rows : List Auth) (username : String) : Except PyErr Auth :=
  match rows.find? (fun a => a.username == username) with
  | none => .error .noResultFound
  | some a => .ok a

/-- `AuthRepo.get_by_id`: the `RepoBase` method, wrapped (by `RepoMeta` at
class-creation time) in `handle_exceptions` with `entity_cls = Auth`. -/
def authRepo_get_by_id (rows : List Auth) (id_ : String) : Except PyErr Auth :=
  handle_exceptions (fun _ i => crud_get_by_id rows i) ⟨"Auth"⟩ id_

/-- `AuthRepo.get_by_username`: the subclass-added method, wrapped (by
`RepoMeta`, without any per-method annotation) in `handle_exceptions`. -/
def authRepo_get_by_username (rows : List Auth) (username : String) : Except PyErr Auth :=
  handle_exceptions (fun _ u => crud_get_by_username rows u) ⟨"Auth"⟩ username

/-! ## The Auth service (`app/auth/services.py`) -/

/-- `AuthService.create_jwt_token`: copy the payload, compute
`exp = now + expires_delta` (default 15 minutes), set the `exp` claim and
sign with `settings.SECRET_KEY`.  `expires_delta` is in seconds. -/
def create_jwt_token (data : Claims) (expires_delta : Option Int) (now : Int) : Token :=
  let expire : Int :=
    match expires_delta with
    | some d => now + d
    | none => now + 15 * 60
  .signed (dictSet data "exp" (.i expire)) SECRET_KEY

/-- `AuthService.create_access_refresh_token_pair`: the access token
carries `user_id`, `username`, `is_admin` and `token_type="access"`
(the `AccessTokenPayload` dataclass, `dataclasses.asdict` field order,
UUIDs rendered as strings by `jsonable_encoder`) with the short TTL; the
refresh token carries `id` (the credential id) and `token_type="refresh"`
with the long TTL. -/
def create_access_refresh_token_pair (auth : Auth) (now : Int) : Token × Token :=
  let at_claims : Claims :=
    [("user_id", .s auth.user_id), ("username", .s auth.username),
     ("is_admin", .b auth.is_admin), ("token_type", .s "access")]
  let access_token := create_jwt_token at_claims (some (ACCESS_TOKEN_EXPIRE_MINUTES * 60)) now
  let rt_claims : Claims := [("id", .s auth.id), ("token_type", .s "refresh")]
  let refresh_token := create_jwt_token rt_claims (some (REFRESH_TOKEN_EXPIRE_MINUTES * 60)) now
  (access_token, refresh_token)

/-- `AuthService.decode_jwt_token`: `jwt.decode` with the raw library
errors (`DecodeError`, `ExpiredSignatureError`) translated to
`NotAuthorizedError`. -/
def decode_jwt_token (tok : Token) (now : Int) : Except PyErr Claims :=
  match jwt_decode tok SECRET_KEY now with
  | .error .decodeError => .error .notAuthorizedError
  | .error .expiredSignatureError => .error .notAuthorizedError
  | r => r

/-- `AuthService.decode_access_token`: decode via `decode_jwt_token`,
require `token_type == "access"` (else `NotAuthorizedError`), then build
`AccessTokenPayload(user_id=UUID(payload["user_id"]),
username=payload["username"])` — the dataclass defaults fill
`is_admin=False` and `token_type="access"`.  A missing key is a Python
`KeyError`; a non-string claim value would not round through `UUID(...)`
(modelled `typeError`; no claim exercises these branches). -/
def decode_access_token (tok : Token) (now : Int) : Except PyErr AccessTokenPayload :=
  match decode_jwt_token tok now with
  | .error e => .error e
  | .ok payload =>
    if payload.lookup "token_type" != some (.s "access") then .error .notAuthorizedError
    else
      match payload.lookup "user_id" with
      | none => .error .keyError
      | some (.s uid) =>
        match payload.lookup "username" with
        | none => .error .keyError
        | some (.s un) => .ok { user_id := uid, username := un }
        | some _ => .error .typeError
      | some _ => .error .typeError

/-- `AuthService.login`: look the credential up by username, translating
only `Auth.NotFoundError` to `InvalidLoginOrPasswordError`; then verify
the password against the stored hash (same failure on mismatch); on
success issue a fresh token pair.  `verify` embeds the external
`pwd_context.verify`. -/
def login (verify : String → String → Bool) (rows : List Auth)
    (username password : String) (now : Int) : Except PyErr (Token × Token) :=
  match authRepo_get_by_username rows username with
  | .error (.notFoundError e) =>
    if e == "Auth" then .error .invalidLoginOrPasswordError else .error (.notFoundError e)
  | .error e => .error e
  | .ok user =>
    if !(verify password user.password_hash) then .error .invalidLoginOrPasswordError
    else .ok (create_access_refresh_token_pair user now)

/-- `AuthService.refresh`.  The second component counts storage lookups
(`auth_repo.get_by_id` calls).  Note the source calls `jwt.decode`
directly here (not `decode_jwt_token`), so the raw library errors
propagate untranslated.  `None` and the empty string are both falsy in
`if not refresh_token`. -/
def refresh (rows : List Auth) (refresh_token : Option Token) (now : Int) :
    Except PyErr (Token × Token) × Nat :=
  match refresh_token with
  | none => (.error .refreshTokenRequiredError, 0)
  | some tok =>
    if tok == Token.malformed "" then (.error .refreshTokenRequiredError, 0)
    else
      match jwt_decode tok SECRET_KEY now with
      | .error e => (.error e, 0)
      | .ok payload =>
        if payload.lookup "token_type" != some (.s "refresh") then
          (.error .notAuthorizedError, 0)
        else
          match payload.lookup "id" with
          | none => (.error .notAuthorizedError, 0)
          | some (.s auth_id) =>
            (match authRepo_get_by_id rows auth_id with
             | .error e => .error e
             | .ok auth => .ok (create_access_refresh_token_pair auth now), 1)
          | some _ => (.error .typeError, 0)

/-- `logged_in_admin_id` (`app/auth/dependencies.py`): the admin gate —
reject with `AdminRightsRequiredError` unless the decoded access payload
has `is_admin`; no storage access. -/
def logged_in_admin_id (payload : AccessTokenPayload) : Except PyErr String :=
  if !payload.is_admin then .error .adminRightsRequiredError
  else .ok payload.user_id

/-! ## Generic CRUD batch insert (`app/core/crud_base.py`)

`CrudBase` is generic in the identifier and DTO types.  A bound storage
session is modelled as the list of rows already in the table plus a count
of `session.execute` round trips; the semantics of
`INSERT ... VALUES ... RETURNING id` (sqlite / postgres, as the code
relies on) is that the returned rows are the inserted rows in input
order, their `id` column given by `idOf`. -/

structure CrudState (DTO : Type) where
  rows : List DTO
  execCount : Nat

/-- `CrudBase.create_many`: materialise the sequence; on empty input
return `[]` without touching the session; otherwise one batch
`INSERT ... RETURNING id` and the list of primary keys in input order. -/
def create_many {ID DTO : Type} (idOf : DTO → ID) (s : CrudState DTO)
    (objs : List DTO) : CrudState DTO × List ID :=
  if objs.length == 0 then (s, [])
  else ({ rows := s.rows ++ objs, execCount := s.execCount + 1 }, objs.map idOf)

/-- `CrudBase.create_and_get_many`: same shape, `RETURNING` the full
rows. -/
def create_and_get_many {DTO : Type} (s : CrudState DTO)
    (objs : List DTO) : CrudState DTO × List DTO :=
  if objs.length == 0 then (s, [])
  else ({ rows := s.rows ++ objs, execCount := s.execCount + 1 }, objs)

/-! ## Serializers (`app/core/serializer.py`) -/

/-- The `Serializer` protocol: `serialize(record) -> DTO` and
`deserialize(DTO) -> record`. -/
structure PSerializer (Model DTO : Type) where
  serialize : Model → DTO
  deserialize : DTO → Model

/-- `FlatSerializer` over a single-item serializer: list comprehensions
applying the single-item functions element-wise. -/
def FlatSerializer {Model DTO : Type} (s : PSerializer Model DTO) :
    PSerializer (List Model) (List DTO) where
  serialize objs := objs.map (fun obj => s.serialize obj)
  deserialize objs := objs.map (fun obj => s.deserialize obj)

/-- `SerializerBase.flat`: the property returning
`FlatSerializer(self)`. -/
def PSerializer.flat {Model DTO : Type} (s : PSerializer Model DTO) :
    PSerializer (List Model) (List DTO) :=
  FlatSerializer s

/-! ## `DataclassSerializer.__init__` (`app/core/serializer.py`)

What the constructor can observe of the Python object passed as `model`
is reduced to the predicates the check (and the spec sentence about it)
mention: whether it is a class, whether it is decorated `@dataclass`,
and — for comparison against the spec's words only — whether its fields
nest further records and whether it defines behaviour beyond field
access. -/

structure PyType where
  isClass : Bool
  isDataclassDecorated : Bool
  hasNestedRecordField : Bool
  hasBehaviorBeyondFields : Bool
deriving DecidableEq, Repr

/-- `DataclassSerializer.__init__`: store the model, then
`raise TypeError` unless `isinstance(model, type) and
is_dataclass(model)`.  Returns the constructed serializer's model on
success. -/
def dataclassSerializerInit (model : PyType) : Except PyErr PyType :=
  if !(model.isClass && model.isDataclassDecorated) then .error .typeError
  else .ok model

/-- Modelled from the spec's words (for comparison with the source
check): a "flat named-field aggregate" — a record type with no nested
records and no behavior beyond field access. -/
def isFlatNamedFieldAggregate (model : PyType) : Bool :=
  model.isClass && model.isDataclassDecorated
    && !model.hasNestedRecordField && !model.hasBehaviorBeyondFields

/-- The claims dictionary of a signed token (a malformed token has none). -/
def tokenClaims : Token → Claims
  | .signed cs _ => cs
  | .malformed _ => []

/-- A concrete stored credential used to instantiate theorems. -/
def auth0 : Auth :=
  { id := "cid-1", user_id := "uid-1", username := "alice",
    password_hash := "hash-1", is_admin := false }

/-- A concrete admin credential used to instantiate theorems. -/
def adminAuth : Auth :=
  { id := "cid-2", user_id := "uid-2", username := "root",
    password_hash := "hash-2", is_admin := true }

/-- C7: `create_many([])` returns `[]` without a storage call (the session
is untouched), and on any input the returned identifiers are exactly the
inserted records' identifiers, element-wise in input order (hence same
length and order for non-empty input too). -/
theorem c7_create_many_empty_and_input_order {ID DTO : Type} (idOf : DTO → ID)
    (s : CrudState DTO) (objs : List DTO) :
    create_many idOf s [] = (s, [])
    ∧ (create_many idOf s objs).2.length = objs.length
    ∧ ∀ i : Nat, (create_many idOf s objs).2[i]? = (objs[i]?).map idOf := by
  refine ⟨rfl, ?_, ?_⟩
  · unfold create_many
    split
    · next h =>
      simp only [beq_iff_eq] at h
      simp [List.eq_nil_of_length_eq_zero h]
    · simp
  · intro i
    unfold create_many
    split
    · next h =>
      simp only [beq_iff_eq] at h
      simp [List.eq_nil_of_length_eq_zero h]
    · simp

/-- C8: the batch (`flat`) serializer applies the single-item
`serialize` / `deserialize` element-wise: output length equals input
length and the i-th output is the single-item function at the i-th
input. -/
theorem c8_flat_serializer_elementwise {Model DTO : Type}
    (s : PSerializer Model DTO) (records : List Model) (dtos : List DTO) :
    (s.flat.serialize records).length = records.length
    ∧ (∀ i : Nat, (s.flat.serialize records)[i]? = (records[i]?).map s.serialize)
    ∧ (s.flat.deserialize dtos).length = dtos.length
    ∧ ∀ i : Nat, (s.flat.deserialize dtos)[i]? = (dtos[i]?).map s.deserialize := by
  refine ⟨?_, ?_, ?_, ?_⟩ <;> simp [PSerializer.flat, FlatSerializer]

/-- C9 counterexample: a dataclass class whose fields nest another record
is not a flat named-field aggregate, yet `DataclassSerializer.__init__`
accepts it — the constructor only checks
`isinstance(model, type) and is_dataclass(model)`, refuting the claim
that construction fails for every non-flat type. -/
theorem c9_nested_dataclass_is_accepted :
    isFlatNamedFieldAggregate
        { isClass := true, isDataclassDecorated := true,
          hasNestedRecordField := true, hasBehaviorBeyondFields := false } = false
    ∧ dataclassSerializerInit
        { isClass := true, isDataclassDecorated := true,
          hasNestedRecordField := true, hasBehaviorBeyondFields := false }
      = .ok { isClass := true, isDataclassDecorated := true,
              hasNestedRecordField := true, hasBehaviorBeyondFields := false } := by
  exact ⟨rfl, rfl⟩

/-- C9 (amended): constructing a `DataclassSerializer` fails with a
`TypeError` exactly when the target is not a class decorated as a
dataclass, and succeeds for every dataclass class — nested record fields
or behaviour beyond field access do not cause failure. -/
theorem c9_init_checks_exactly_is_dataclass (model : PyType) :
    (dataclassSerializerInit model = .ok model
      ↔ (model.isClass && model.isDataclassDecorated) = true)
    ∧ (dataclassSerializerInit model = .error .typeError
      ↔ (model.isClass && model.isDataclassDecorated) = false) := by
  unfold dataclassSerializerInit
  cases h : model.isClass && model.isDataclassDecorated <;> simp [h]

/-- C4: whether the username is unknown (the repository lookup raises
`Auth.NotFoundError`) or the username exists and password verification
fails, `login` raises the one identical
`InvalidLoginOrPasswordError` — the two causes are indistinguishable to
the caller. -/
theorem c4_login_failure_indistinguishable (verify : String → String → Bool)
    (rows : List Auth) (u p : String) (now : Int) :
    (authRepo_get_by_username rows u = .error (.notFoundError "Auth") →
      login verify rows u p now = .error .invalidLoginOrPasswordError)
    ∧ ∀ c : Auth, authRepo_get_by_username rows u = .ok c →
      verify p c.password_hash = false →
      login verify rows u p now = .error .invalidLoginOrPasswordError := by
  constructor
  · intro h
    simp [login, h]
  · intro c hc hv
    simp [login, hc, hv]

/-- C4 witness: with no stored credential, and with a stored credential
plus failing verification, `login` returns the same failure. -/
theorem c4_witness :
    login (fun _ _ => true) [] "nobody" "pw" 0 = .error .invalidLoginOrPasswordError
    ∧ login (fun _ _ => false) [auth0] "alice" "wrong" 0
      = .error .invalidLoginOrPasswordError := by
  constructor
  · exact (c4_login_failure_indistinguishable (fun _ _ => true) [] "nobody" "pw" 0).1 rfl
  · exact (c4_login_failure_indistinguishable (fun _ _ => false) [auth0] "alice" "wrong" 0).2
      auth0 rfl rfl

/-- C6: for a token that decodes (valid signature, unexpired),
`decode_access_token` raises `NotAuthorizedError` whenever the
`token_type` claim is not `"access"`, and `refresh` raises
`NotAuthorizedError` whenever it is not `"refresh"` — each operation
accepts only its own token type. -/
theorem c6_token_type_cross_use_rejected (rows : List Auth) (claims : Claims)
    (now : Int)
    (hok : jwt_decode (.signed claims SECRET_KEY) SECRET_KEY now = .ok claims) :
    (claims.lookup "token_type" ≠ some (.s "access") →
      decode_access_token (.signed claims SECRET_KEY) now = .error .notAuthorizedError)
    ∧ (claims.lookup "token_type" ≠ some (.s "refresh") →
      (refresh rows (some (.signed claims SECRET_KEY)) now).1
        = .error .notAuthorizedError) := by
  constructor
  · intro h
    simp [decode_access_token, decode_jwt_token, hok, h]
  · intro h
    simp [refresh, hok, h]

/-- C6 witness: a decodable token of a third `token_type` is rejected by
both consumers. -/
theorem c6_witness :
    decode_access_token
        (.signed [("token_type", .s "other"), ("exp", .i 100)] SECRET_KEY) 0
      = .error .notAuthorizedError
    ∧ (refresh []
        (some (.signed [("token_type", .s "other"), ("exp", .i 100)] SECRET_KEY)) 0).1
      = .error .notAuthorizedError := by
  have h := c6_token_type_cross_use_rejected []
    [("token_type", JVal.s "other"), ("exp", JVal.i 100)] 0 rfl
  exact ⟨h.1 (by decide), h.2 (by decide)⟩

/-- C10: a refresh token with valid signature, unexpired and of
`token_type="refresh"` but carrying no `"id"` claim makes `refresh` raise
`NotAuthorizedError` with zero storage lookups. -/
theorem c10_refresh_missing_id_no_lookup (rows : List Auth) (claims : Claims)
    (now : Int)
    (hok : jwt_decode (.signed claims SECRET_KEY) SECRET_KEY now = .ok claims)
    (htt : claims.lookup "token_type" = some (.s "refresh"))
    (hid : claims.lookup "id" = none) :
    refresh rows (some (.signed claims SECRET_KEY)) now
      = (.error .notAuthorizedError, 0) := by
  simp [refresh, hok, htt, hid]

/-- C10 witness: a concrete id-less refresh token. -/
theorem c10_witness :
    refresh [] (some (.signed [("token_type", .s "refresh"), ("exp", .i 100)] SECRET_KEY)) 0
      = (.error .notAuthorizedError, 0) :=
  c10_refresh_missing_id_no_lookup []
    [("token_type", JVal.s "refresh"), ("exp", JVal.i 100)] 0 rfl rfl rfl

/-- C1: for a stored credential `c` (the one the username lookup resolves
to) and a password that verifies against its stored hash, `login`
succeeds, and decoding the returned access token while it is still fresh
yields a payload carrying exactly `c.username` and `c.user_id`. -/
theorem c1_login_then_decode_preserves_identity (verify : String → String → Bool)
    (rows : List Auth) (c : Auth) (p : String) (now now' : Int)
    (hfind : authRepo_get_by_username rows c.username = .ok c)
    (hpw : verify p c.password_hash = true)
    (hfresh : now' < now + ACCESS_TOKEN_EXPIRE_MINUTES * 60) :
    ∃ atk rtk payload,
      login verify rows c.username p now = .ok (atk, rtk)
      ∧ decode_access_token atk now' = .ok payload
      ∧ payload.username = c.username
      ∧ payload.user_id = c.user_id := by
  refine ⟨(create_access_refresh_token_pair c now).1,
          (create_access_refresh_token_pair c now).2,
          { user_id := c.user_id, username := c.username }, ?_, ?_, rfl, rfl⟩
  · simp [login, hfind, hpw]
  · simp only [create_access_refresh_token_pair, create_jwt_token, dictSet]
    simp [decode_access_token, decode_jwt_token, jwt_decode, List.lookup]
    rw [if_neg (not_le.mpr hfresh)]
    simp [List.lookup]

/-- C1 witness: a concrete credential, issued at time 0 and decoded at
time 1. -/
theorem c1_witness :
    ∃ atk rtk payload,
      login (fun _ _ => true) [auth0] auth0.username "pw" 0 = .ok (atk, rtk)
      ∧ decode_access_token atk 1 = .ok payload
      ∧ payload.username = auth0.username
      ∧ payload.user_id = auth0.user_id :=
  c1_login_then_decode_preserves_identity (fun _ _ => true) [auth0] auth0 "pw" 0 1
    rfl rfl (by decide)

/-- C2 at the failing input (an admin credential): the issued access
token does carry `is_admin = true` in its claims, but
`decode_access_token` rebuilds `AccessTokenPayload` without the
`is_admin` claim, so the decoded payload has `is_admin = false` and the
admin gate `logged_in_admin_id` raises `AdminRightsRequiredError` even
for the admin — the decoded flag does not equal the credential's flag. -/
theorem c2_decode_access_drops_admin_flag :
    (tokenClaims (create_access_refresh_token_pair adminAuth 0).1).lookup "is_admin"
      = some (.b true)
    ∧ decode_access_token (create_access_refresh_token_pair adminAuth 0).1 1
      = .ok { user_id := "uid-2", username := "root",
              is_admin := false, token_type := "access" }
    ∧ logged_in_admin_id
        { user_id := "uid-2", username := "root",
          is_admin := false, token_type := "access" }
      = .error .adminRightsRequiredError := by
  refine ⟨rfl, ?_, rfl⟩
  simp [create_access_refresh_token_pair, create_jwt_token, dictSet,
    decode_access_token, decode_jwt_token, jwt_decode, List.lookup,
    ACCESS_TOKEN_EXPIRE_MINUTES, adminAuth]

/-- C3 at the failing inputs: `refresh` translates a missing/empty token
to `RefreshTokenRequiredError`, resolves a valid token (unknown id →
`Auth.NotFoundError`, known id → a fresh pair), but — calling `jwt.decode`
directly instead of `decode_jwt_token` — it lets the raw library errors
escape: a token signed with another key yields `DecodeError` and an
expired token yields `ExpiredSignatureError`, not the claimed
`NotAuthorizedError`. -/
theorem c3_refresh_leaks_raw_jwt_errors :
    refresh [] none 0 = (.error .refreshTokenRequiredError, 0)
    ∧ refresh [] (some (.malformed "")) 0 = (.error .refreshTokenRequiredError, 0)
    ∧ (refresh []
        (some (.signed [("id", .s "cid-1"), ("token_type", .s "refresh"), ("exp", .i 100)]
          "attacker-key")) 0).1
      = .error .decodeError
    ∧ (refresh []
        (some (.signed [("id", .s "cid-1"), ("token_type", .s "refresh"), ("exp", .i (-5))]
          SECRET_KEY)) 0).1
      = .error .expiredSignatureError
    ∧ refresh []
        (some (.signed [("id", .s "cid-9"), ("token_type", .s "refresh"), ("exp", .i 100)]
          SECRET_KEY)) 0
      = (.error (.notFoundError "Auth"), 1)
    ∧ refresh [auth0]
        (some (.signed [("id", .s "cid-1"), ("token_type", .s "refresh"), ("exp", .i 100)]
          SECRET_KEY)) 0
      = (.ok (create_access_refresh_token_pair auth0 0), 1) := by
  refine ⟨rfl, rfl, rfl, rfl, rfl, rfl⟩

/-- C5: every coroutine method in a namespace handed to `RepoMeta` that
does not already carry the `__handle_exceptions__` marker — including
subclass-added methods such as `AuthRepo.get_by_username`, with no
per-method annotation — ends up in the created class wrapped in exactly
the one classification step: storage `NoResultFound` becomes the entity's
`NotFoundError`, a unique-constraint `IntegrityError` becomes the
entity's `AlreadyExistError`, any other `IntegrityError` is re-raised,
and every other error or success passes through unchanged. -/
theorem c5_repo_meta_wraps_every_async_method {α β : Type}
    (ns : List (String × RepoMethod α β)) (n : String) (m : RepoMethod α β)
    (hmem : (n, m) ∈ ns) (hco : m.isCoroutine = true) (hmk : m.hasMarker = false) :
    (n, repoMetaTransform m) ∈ repoMetaNew ns
    ∧ (repoMetaTransform m).run = handle_exceptions m.run
    ∧ ∀ (self : RepoSelf) (args : α),
        (m.run self args = .error .noResultFound →
          (repoMetaTransform m).run self args = .error (.notFoundError self.entityName))
        ∧ (∀ msg, m.run self args = .error (.integrityError msg) →
            isUniqueViolationMsg msg = true →
            (repoMetaTransform m).run self args
              = .error (.alreadyExistError self.entityName))
        ∧ (∀ msg, m.run self args = .error (.integrityError msg) →
            isUniqueViolationMsg msg = false →
            (repoMetaTransform m).run self args = .error (.integrityError msg))
        ∧ (∀ e, m.run self args = .error e → isStorageNative e = false →
            (repoMetaTransform m).run self args = .error e)
        ∧ (∀ v, m.run self args = .ok v →
            (repoMetaTransform m).run self args = .ok v) := by
  have hrun : (repoMetaTransform m).run = handle_exceptions m.run := by
    simp [repoMetaTransform, hco, hmk]
  refine ⟨?_, hrun, ?_⟩
  · exact List.mem_map_of_mem (fun p => (p.1, repoMetaTransform p.2)) hmem
  · intro self args
    refine ⟨?_, ?_, ?_, ?_, ?_⟩
    · intro h
      simp [hrun, handle_exceptions, h]
    · intro msg h hu
      simp [hrun, handle_exceptions, h, hu]
    · intro msg h hu
      simp [hrun, handle_exceptions, h, hu]
    · intro e h he
      cases e <;> simp_all [hrun, handle_exceptions, isStorageNative]
    · intro v h
      simp [hrun, handle_exceptions, h]

/-- The namespace of `AuthRepo` as handed to `RepoMeta.__new__`: the one
subclass-added coroutine method `get_by_username`, written with no
decorator, its body `self.crud.get_by_username` over a store holding only
`auth0`. -/
def authRepoNamespace : List (String × RepoMethod String Auth) :=
  [("get_by_username",
    { isCoroutine := true, hasMarker := false,
      run := fun _ u => crud_get_by_username [auth0] u })]

/-- C5 witness: `AuthRepo.get_by_username` comes out of `RepoMeta`
wrapped, and on a missing username the storage `NoResultFound` surfaces
as `Auth.NotFoundError`. -/
theorem c5_witness :
    ("get_by_username",
      repoMetaTransform
        { isCoroutine := true, hasMarker := false,
          run := fun _ u => crud_get_by_username [auth0] u }) ∈ repoMetaNew authRepoNamespace
    ∧ (repoMetaTransform
        { isCoroutine := true, hasMarker := false,
          run := fun _ u => crud_get_by_username [auth0] u }).run ⟨"Auth"⟩ "bob"
      = .error (.notFoundError "Auth") := by
  have h := c5_repo_meta_wraps_every_async_method authRepoNamespace "get_by_username"
    { isCoroutine := true, hasMarker := false,
      run := fun _ u => crud_get_by_username [auth0] u }
    (List.Mem.head _) rfl rfl
  exact ⟨h.1, (h.2.2 ⟨"Auth"⟩ "bob").1 rfl⟩
